import Mathlib

/-!
Shallow embedding of the DevConnector REST backend's post and profile
route handlers (`routes/api/posts.js` and `routes/api/profile.js`).

The document store (Mongoose/MongoDB) is modelled as a list of documents:
`findById` on a syntactically invalid object id throws a cast error whose
`kind` is `'ObjectId'` (constructor `FindResult.castError` below), and on a
valid id resolves to the first stored document with that id, or to `null`
(`FindResult.result none`).  Each handler's `catch` block translates a cast
error into its own 404 message and everything else — in particular the
`TypeError` raised by reading a property of `null` — into a generic
500 "Server Error" (`HttpError.serverError`).
-/

deriving instance DecidableEq for Except

namespace DevConnector

/-- JavaScript runtime values, as far as the handlers inspect them
(the `ispublic` flag of a post-creation request may arrive with any type). -/
inductive JSValue where
  | undef
  | null
  | bool (b : Bool)
  | num (n : Int)
  | str (s : String)
deriving DecidableEq, Repr

/-- The string produced by JavaScript's `typeof` operator. -/
def JSValue.typeofStr : JSValue → String
  | .undef => "undefined"
  | .null => "object"
  | .bool _ => "boolean"
  | .num _ => "number"
  | .str _ => "string"

/-- JavaScript truthiness (`NaN` does not arise in these handlers). -/
def JSValue.truthy : JSValue → Bool
  | .undef => false
  | .null => false
  | .bool b => b
  | .num n => n != 0
  | .str s => s != ""

/-- A like subdocument embedded in a post: `{ user: <id> }`. -/
structure Like where
  user : String
deriving DecidableEq, Repr

/-- A comment subdocument embedded in a post. -/
structure Comment where
  id : String
  text : String
  name : String
  avatar : String
  user : String
deriving DecidableEq, Repr

/-- A post document.  `ispublic` defaults to `true`.
Modelled from the spec: the Mongoose `Post` schema (not under the routes
source) declares `ispublic` with default `true`; the creation handler only
ever overrides it to `false`. -/
structure Post where
  id : String
  text : String
  name : String
  avatar : String
  user : String
  ispublic : Bool
  likes : List Like
  comments : List Comment
deriving DecidableEq, Repr

/-- A user document, restricted to the fields the post handlers read. -/
structure User where
  id : String
  name : String
  avatar : String
deriving DecidableEq, Repr

/-- HTTP-level failures the handlers produce.
`validation` is the 400 `{ errors: [...] }` answer of `express-validator`;
`notFound` is a 404, `badRequest` a 400 `{ msg }`, `unauthorized` a 401;
`serverError` is the generic 500 "Server Error" a handler's `catch` sends
for any fault other than an ObjectId cast error. -/
inductive HttpError where
  | validation (msgs : List String)
  | notFound (msg : String)
  | badRequest (msg : String)
  | unauthorized (msg : String)
  | serverError
deriving DecidableEq, Repr

/-- Outcome of a Mongoose `findById`/`findOne`: a cast error (invalid id
format, caught with `err.kind == 'ObjectId'`) or an optional document. -/
inductive FindResult (α : Type) where
  | castError
  | result (doc : Option α)
deriving DecidableEq, Repr

/-- A MongoDB ObjectId in its canonical string form: 24 hexadecimal
characters.  `findById` with any other string throws the cast error. -/
def isValidObjectId (s : String) : Bool :=
  s.length == 24 && s.toList.all (fun c => c.isDigit || ("abcdefABCDEF".toList.contains c))

/-- `Post.findById(id)`: cast error on a malformed id, otherwise the first
stored post with that id, if any. -/
def findPostById (posts : List Post) (id : String) : FindResult Post :=
  if isValidObjectId id then .result (posts.find? (fun p => p.id == id))
  else .castError

/-- `Post.save()` after mutating a loaded post: writes the document back
under its id. -/
def savePost (posts : List Post) (post : Post) : List Post :=
  posts.map (fun p => if p.id == post.id then post else p)

/-- The module-scoped error message constant of `posts.js`. -/
def ERR_NOTFOUND : String := "Post not found or is private"

/-- GET `api/posts/:id`.  `if(!post.ispublic)` dereferences the loaded
post without a null check, so a well-formed id that resolves to no post
raises a `TypeError`, which the `catch` turns into the generic 500 (its
`kind` is not `'ObjectId'`). -/
def getPost (posts : List Post) (id : String) : Except HttpError Post :=
  match findPostById posts id with
  | .castError => .error (.notFound ERR_NOTFOUND)
  | .result none => .error .serverError
  | .result (some post) =>
      if !post.ispublic then .error (.notFound ERR_NOTFOUND)
      else .ok post

/-- POST `api/posts`: validation (`text` non-empty), author lookup
(`user.name` on a missing user raises, hence the 500), then construction
of the new post; `ispublic` is forced to `false` exactly when
`typeof req.body.ispublic == 'boolean' && !req.body.ispublic`.
The store-assigned id of the new document is passed in as `newId`. -/
def createPost (users : List User) (requesterId : String) (newId : String)
    (text : String) (ispublicVal : JSValue) : Except HttpError Post :=
  if text == "" then .error (.validation ["Post text is required"])
  else
    match users.find? (fun u => u.id == requesterId) with
    | none => .error .serverError
    | some user =>
        let newPost : Post :=
          { id := newId, text := text, name := user.name, avatar := user.avatar
            user := requesterId, ispublic := true, likes := [], comments := [] }
        let newPost :=
          if ispublicVal.typeofStr == "boolean" && !ispublicVal.truthy then
            { newPost with ispublic := false }
          else newPost
        .ok newPost

/-- DELETE `api/posts/:id`: 404 "Post not found" on a malformed id (cast
error) or a null lookup (this handler does check `!post`), 401 when the
requester does not own the post, otherwise `post.remove()`.
Returns the response together with the resulting store. -/
def deletePost (posts : List Post) (id : String) (requesterId : String) :
    Except HttpError String × List Post :=
  match findPostById posts id with
  | .castError => (.error (.notFound "Post not found"), posts)
  | .result none => (.error (.notFound "Post not found"), posts)
  | .result (some post) =>
      if post.user != requesterId then
        (.error (.unauthorized "User unauthorized to delete post"), posts)
      else
        (.ok "Post removed", posts.eraseP (fun p => p.id == post.id))

/-- PUT `api/posts/like/:id`.  As in `getPost`, `!post.ispublic` on a null
lookup raises and becomes the 500.  A like by a user already present in
`post.likes` is a 400 `{ msg: 'Post already liked' }`; otherwise the like
is unshifted onto the head and the post saved. -/
def likePost (posts : List Post) (id : String) (requesterId : String) :
    Except HttpError (List Like) × List Post :=
  match findPostById posts id with
  | .castError => (.error (.notFound ERR_NOTFOUND), posts)
  | .result none => (.error .serverError, posts)
  | .result (some post) =>
      if !post.ispublic then (.error (.notFound ERR_NOTFOUND), posts)
      else if (post.likes.filter (fun l => l.user == requesterId)).length > 0 then
        (.error (.badRequest "Post already liked"), posts)
      else
        let post' := { post with likes := { user := requesterId } :: post.likes }
        (.ok post'.likes, savePost posts post')

/-- PUT `api/posts/unlike/:id`.  A user with no like on the post gets a
400 `{ msg: 'Post was never liked' }`.  Otherwise `indexOf` finds the
first matching like and `splice(removeIndex, 1)` removes it; the
`removeIndex >= 0` guard (JavaScript `indexOf` yields -1 on a miss) is the
`none` branch of `findIdx?`, which skips the splice and the save. -/
def unlikePost (posts : List Post) (id : String) (requesterId : String) :
    Except HttpError (List Like) × List Post :=
  match findPostById posts id with
  | .castError => (.error (.notFound ERR_NOTFOUND), posts)
  | .result none => (.error .serverError, posts)
  | .result (some post) =>
      if !post.ispublic then (.error (.notFound ERR_NOTFOUND), posts)
      else if (post.likes.filter (fun l => l.user == requesterId)).length == 0 then
        (.error (.badRequest "Post was never liked"), posts)
      else
        match (post.likes.map (fun l => l.user)).findIdx? (fun u => u == requesterId) with
        | none => (.ok post.likes, posts)
        | some removeIndex =>
            let post' := { post with likes := post.likes.eraseIdx removeIndex }
            (.ok post'.likes, savePost posts post')

/-- DELETE `api/posts/comment/:id/:comment_id`.  `findIndex` locates the
first comment with the given id; `post.comments[removeIndex]` is
`undefined` exactly when the index is -1, which yields the 404; a
requester other than the comment's author gets the 401; otherwise
`splice(removeIndex, 1)` removes that one comment and the post is saved. -/
def deleteComment (posts : List Post) (id : String) (commentId : String)
    (requesterId : String) : Except HttpError String × List Post :=
  match findPostById posts id with
  | .castError => (.error (.notFound ERR_NOTFOUND), posts)
  | .result none => (.error .serverError, posts)
  | .result (some post) =>
      match post.comments.findIdx? (fun c => c.id == commentId) with
      | none => (.error (.notFound "Comment does not exist"), posts)
      | some removeIndex =>
          match post.comments[removeIndex]? with
          | none => (.error (.notFound "Comment does not exist"), posts)
          | some comment =>
              if comment.user != requesterId then
                (.error (.unauthorized "User not authorized"), posts)
              else
                let post' :=
                  { post with comments := post.comments.eraseIdx removeIndex }
                (.ok "Comment deleted", savePost posts post')

/-- The social-links subdocument of a profile.  A key is `none` when the
document does not carry it. -/
structure Social where
  youtube : Option String
  twitter : Option String
  facebook : Option String
  linkedin : Option String
  instagram : Option String
  devpost : Option String
deriving DecidableEq, Repr

/-- An experience subdocument.  `title`, `company` and `fromDate`
(`from` in the source, a reserved word here) are validated non-empty;
the rest are copied from the request even when absent.  `id` is assigned
by the store. -/
structure Experience where
  id : String
  title : String
  company : String
  location : Option String
  fromDate : String
  toDate : Option String
  current : Option Bool
  description : Option String
deriving DecidableEq, Repr

/-- An education subdocument, mirroring `Experience`. -/
structure Education where
  id : String
  school : String
  degree : String
  fieldofstudy : String
  location : Option String
  fromDate : String
  toDate : Option String
  current : Option Bool
  description : Option String
deriving DecidableEq, Repr

/-- A profile document. -/
structure Profile where
  user : String
  company : Option String
  website : Option String
  location : Option String
  bio : Option String
  status : Option String
  githubusername : Option String
  skills : List String
  social : Social
  experience : List Experience
  education : List Education
deriving DecidableEq, Repr

/-- Truthiness of a string-typed request field: a string is falsy exactly
when it is empty, and an absent field (`undefined`) is falsy. -/
def strTruthy : Option String → Bool
  | none => false
  | some s => s != ""

/-- The `$set` document built by POST `api/profile` (`profileFields`):
`user` is always present, each optional top-level key is present exactly
when the request field is truthy, and `social` is *always* present as a
whole subdocument, since the handler unconditionally initialises
`profileFields.social = {}` before filling it. -/
structure ProfileFields where
  user : String
  company : Option String
  website : Option String
  location : Option String
  bio : Option String
  status : Option String
  githubusername : Option String
  skills : Option (List String)
  social : Social
deriving DecidableEq, Repr

/-- The request body of POST `api/profile`, restricted to the fields the
handler destructures; each is a string or absent. -/
structure ProfileReq where
  company : Option String
  website : Option String
  location : Option String
  bio : Option String
  status : Option String
  githubusername : Option String
  skills : Option String
  youtube : Option String
  twitter : Option String
  facebook : Option String
  linkedin : Option String
  instagram : Option String
  devpost : Option String
deriving DecidableEq, Repr

/-- The social part of `profileFields`: a key is set exactly when the
request field is truthy. -/
def buildSocial (req : ProfileReq) : Social :=
  { youtube := if strTruthy req.youtube then req.youtube else none
    twitter := if strTruthy req.twitter then req.twitter else none
    facebook := if strTruthy req.facebook then req.facebook else none
    linkedin := if strTruthy req.linkedin then req.linkedin else none
    instagram := if strTruthy req.instagram then req.instagram else none
    devpost := if strTruthy req.devpost then req.devpost else none }

/-- `profileFields` as built by the handler: truthy top-level fields are
copied, `skills` is comma-split and trimmed, and `social` is the freshly
built social object. -/
def buildProfileFields (userId : String) (req : ProfileReq) : ProfileFields :=
  { user := userId
    company := if strTruthy req.company then req.company else none
    website := if strTruthy req.website then req.website else none
    location := if strTruthy req.location then req.location else none
    bio := if strTruthy req.bio then req.bio else none
    status := if strTruthy req.status then req.status else none
    githubusername := if strTruthy req.githubusername then req.githubusername else none
    skills :=
      match req.skills with
      | some s => if s != "" then some ((s.splitOn ",").map String.trim) else none
      | none => none
    social := buildSocial req }

/-- MongoDB `$set` with the `profileFields` document: every key present in
the document is written, absent keys are untouched.  Because `social` is
always a key of `profileFields`, the whole stored `social` subdocument is
replaced by the new one (a nested object under `$set` is not merged). -/
def applySet (p : Profile) (f : ProfileFields) : Profile :=
  { user := f.user
    company := match f.company with | some v => some v | none => p.company
    website := match f.website with | some v => some v | none => p.website
    location := match f.location with | some v => some v | none => p.location
    bio := match f.bio with | some v => some v | none => p.bio
    status := match f.status with | some v => some v | none => p.status
    githubusername :=
      match f.githubusername with | some v => some v | none => p.githubusername
    skills := match f.skills with | some v => v | none => p.skills
    social := f.social
    experience := p.experience
    education := p.education }

/-- `new Profile(profileFields)`: a fresh document from exactly the
present fields (`skills` falls back to the schema's empty list). -/
def newProfile (f : ProfileFields) : Profile :=
  { user := f.user
    company := f.company
    website := f.website
    location := f.location
    bio := f.bio
    status := f.status
    githubusername := f.githubusername
    skills := f.skills.getD []
    social := f.social
    experience := []
    education := [] }

/-- `Profile.findOneAndUpdate({user}, {$set: profileFields}, {new:true})`:
applies `$set` to the first profile of the given user. -/
def findOneAndUpdateProfile : List Profile → String → ProfileFields → List Profile
  | [], _, _ => []
  | p :: ps, userId, f =>
      if p.user == userId then applySet p f :: ps
      else p :: findOneAndUpdateProfile ps userId f

/-- The `express-validator` checks of POST `api/profile`: `status` and
`skills` must be non-empty. -/
def profileValidationErrors (req : ProfileReq) : List String :=
  (if strTruthy req.status then [] else ["Status is required"]) ++
  (if strTruthy req.skills then [] else ["Skills is required"])

/-- POST `api/profile`: after validation, build `profileFields`; if a
profile already exists for the authenticated user, `$set`-update it and
return the updated record, else create one from the present fields. -/
def upsertProfile (profiles : List Profile) (userId : String) (req : ProfileReq) :
    Except HttpError Profile × List Profile :=
  if profileValidationErrors req ≠ [] then
    (.error (.validation (profileValidationErrors req)), profiles)
  else
    let f := buildProfileFields userId req
    match profiles.find? (fun p => p.user == userId) with
    | some profile => (.ok (applySet profile f), findOneAndUpdateProfile profiles userId f)
    | none => (.ok (newProfile f), profiles ++ [newProfile f])

/-- `Profile.save()` after mutating a loaded profile: writes the document
back under its owning user id. -/
def saveProfile (profiles : List Profile) (profile : Profile) : List Profile :=
  profiles.map (fun p => if p.user == profile.user then profile else p)

/-- The `express-validator` checks of PUT `api/profile/experience`
(the "Form date" typo is the source's). -/
def expValidationErrors (title company fromDate : String) : List String :=
  (if title != "" then [] else ["Title is required"]) ++
  (if company != "" then [] else ["Company is required"]) ++
  (if fromDate != "" then [] else ["Form date is required"])

/-- PUT `api/profile/experience`: after validation, the handler loads the
requester's profile with no null check, so a missing profile raises a
`TypeError` on `profile.experience` and the `catch` sends the 500;
otherwise the new entry is unshifted onto the head and the profile saved. -/
def addExperience (profiles : List Profile) (userId : String) (entry : Experience) :
    Except HttpError Profile × List Profile :=
  if expValidationErrors entry.title entry.company entry.fromDate ≠ [] then
    (.error (.validation (expValidationErrors entry.title entry.company entry.fromDate)),
     profiles)
  else
    match profiles.find? (fun p => p.user == userId) with
    | none => (.error .serverError, profiles)
    | some profile =>
        let profile' := { profile with experience := entry :: profile.experience }
        (.ok profile', saveProfile profiles profile')

/-- DELETE `api/profile/experience/:exp_id`: `indexOf` over the entry ids;
only when the index is non-negative are `splice` and `save` executed; the
profile (spliced or not) is returned either way.  The third component
records whether `save` ran. -/
def removeExperience (profiles : List Profile) (userId : String) (expId : String) :
    Except HttpError Profile × List Profile × Bool :=
  match profiles.find? (fun p => p.user == userId) with
  | none => (.error .serverError, profiles, false)
  | some profile =>
      match (profile.experience.map (fun e => e.id)).findIdx? (fun i => i == expId) with
      | none => (.ok profile, profiles, false)
      | some removeIndex =>
          let profile' :=
            { profile with experience := profile.experience.eraseIdx removeIndex }
          (.ok profile', saveProfile profiles profile', true)

/-- DELETE `api/profile/education/:edu_id`: mirrors `removeExperience`. -/
def removeEducation (profiles : List Profile) (userId : String) (eduId : String) :
    Except HttpError Profile × List Profile × Bool :=
  match profiles.find? (fun p => p.user == userId) with
  | none => (.error .serverError, profiles, false)
  | some profile =>
      match (profile.education.map (fun e => e.id)).findIdx? (fun i => i == eduId) with
      | none => (.ok profile, profiles, false)
      | some removeIndex =>
          let profile' :=
            { profile with education := profile.education.eraseIdx removeIndex }
          (.ok profile', saveProfile profiles profile', true)

/-! ### Concrete sample documents for witnesses and counterexamples -/

/-- A profile with one experience entry and one education entry. -/
def cx9Profile : Profile :=
  { user := "u9", company := none, website := none, location := none, bio := none
    status := some "dev", githubusername := none, skills := ["js"]
    social := { youtube := none, twitter := none, facebook := none, linkedin := none
                instagram := none, devpost := none }
    experience := [{ id := "e1", title := "Dev", company := "Acme", location := none
                     fromDate := "2020", toDate := none, current := none
                     description := none }]
    education := [{ id := "d1", school := "MIT", degree := "BS", fieldofstudy := "CS"
                    location := none, fromDate := "2016", toDate := none
                    current := none, description := none }] }

/-- Discriminator used to compare an outcome against the NotFound family
without naming a particular message. -/
def resultIsNotFound {α : Type} : Except HttpError α → Bool
  | .error (.notFound _) => true
  | _ => false

/-- A public post with no likes or comments, under a well-formed id. -/
def cx1Post : Post :=
  { id := "eeeeeeeeeeeeeeeeeeeeeeee", text := "hello", name := "Ada", avatar := "av"
    user := "u1", ispublic := true, likes := [], comments := [] }

/-- A public post already liked by user `uA`. -/
def cx5Post : Post :=
  { id := "aaaaaaaaaaaaaaaaaaaaaaaa", text := "t", name := "n", avatar := "a"
    user := "uO", ispublic := true, likes := [{ user := "uA" }], comments := [] }

/-- A private post owned by user `u1`. -/
def cx6Post : Post :=
  { id := "bbbbbbbbbbbbbbbbbbbbbbbb", text := "t", name := "n", avatar := "a"
    user := "u1", ispublic := false, likes := [], comments := [] }

/-- A post with two comments by different authors. -/
def cx7Post : Post :=
  { id := "cccccccccccccccccccccccc", text := "t", name := "n", avatar := "a"
    user := "u1", ispublic := true, likes := []
    comments := [{ id := "m1", text := "one", name := "n1", avatar := "a1", user := "uA" },
                 { id := "m2", text := "two", name := "n2", avatar := "a2", user := "uB" }] }

/-- A public post liked by user `uB` only. -/
def cx4Post : Post :=
  { id := "dddddddddddddddddddddddd", text := "t", name := "n", avatar := "a"
    user := "uO", ispublic := true, likes := [{ user := "uB" }], comments := [] }

/-- A well-formed experience entry. -/
def cx8Entry : Experience :=
  { id := "x1", title := "Dev", company := "Acme", location := none
    fromDate := "2020", toDate := none, current := none, description := none }

/-- A profile for user `u8` with an empty experience sequence. -/
def cx8Profile : Profile :=
  { user := "u8", company := none, website := none, location := none, bio := none
    status := some "dev", githubusername := none, skills := ["js"]
    social := { youtube := none, twitter := none, facebook := none, linkedin := none
                instagram := none, devpost := none }
    experience := [], education := [] }

/-- A profile whose social object carries a twitter link. -/
def cx3Profile : Profile :=
  { user := "u3", company := none, website := none, location := none, bio := none
    status := some "dev", githubusername := none, skills := ["js"]
    social := { youtube := none, twitter := some "t", facebook := none, linkedin := none
                instagram := none, devpost := none }
    experience := [], education := [] }

/-- A valid update request that mentions no social field at all. -/
def cx3Req : ProfileReq :=
  { company := none, website := none, location := none, bio := none
    status := some "new", githubusername := none, skills := some "go"
    youtube := none, twitter := none, facebook := none, linkedin := none
    instagram := none, devpost := none }

/-- A profile whose social object carries a youtube link. -/
def cx10Profile : Profile :=
  { user := "uX", company := some "Acme", website := none, location := none, bio := none
    status := some "dev", githubusername := none, skills := ["js"]
    social := { youtube := some "y", twitter := none, facebook := none, linkedin := none
                instagram := none, devpost := none }
    experience := [], education := [] }

/-- A valid update request that supplies `youtube` as the empty string. -/
def cx10Req : ProfileReq :=
  { company := some "", website := none, location := none, bio := none
    status := some "dev", githubusername := none, skills := some "js"
    youtube := some "", twitter := none, facebook := none, linkedin := none
    instagram := none, devpost := none }

/-! ### Bridging lemmas -/

/-- The creation handler's exact-type test on the `ispublic` flag holds of
precisely the JavaScript boolean `false`. -/
theorem flag_check_eq (v : JSValue) :
    (v.typeofStr == "boolean" && !v.truthy) = (v == JSValue.bool false) := by
  cases v with
  | bool b => cases b <;> rfl
  | undef => rfl
  | null => rfl
  | num n => simp [JSValue.typeofStr, JSValue.truthy]
  | str s => simp [JSValue.typeofStr, JSValue.truthy]

/-- The `filter`-based membership test of the like handlers agrees with
membership of the user id in the like sequence. -/
theorem likes_filter_pos_iff (likes : List Like) (r : String) :
    0 < (likes.filter (fun l => l.user == r)).length ↔ r ∈ likes.map Like.user := by
  induction likes with
  | nil => simp
  | cons a l ih =>
      by_cases h : a.user = r
      · simp [List.filter_cons, h]
      · simp only [List.filter_cons, beq_iff_eq, h, if_false, List.map_cons, List.mem_cons, ih]
        constructor
        · intro hm
          exact Or.inr hm
        · intro hm
          rcases hm with hm | hm
          · exact absurd hm.symm h
          · exact hm

/-- `indexOf` (modelled as `findIdx?`) misses exactly when the sought id is
not in the list. -/
theorem findIdx?_beq_eq_none_iff (l : List String) (x : String) :
    l.findIdx? (fun i => i == x) = none ↔ x ∉ l := by
  rw [List.findIdx?_eq_none_iff]
  constructor
  · intro h hx
    have := h x hx
    simp at this
  · intro h y hy
    simp only [beq_eq_false_iff_ne, ne_eq]
    intro he
    exact h (he ▸ hy)

/-- After saving a modified copy of the post a lookup found, the same
lookup finds the modified copy. -/
theorem find?_savePost {posts : List Post} {id : String} {post post' : Post}
    (hfind : posts.find? (fun p => p.id == id) = some post)
    (hid : post'.id = post.id) :
    (savePost posts post').find? (fun p => p.id == id) = some post' := by
  have hpost : post.id = id := by
    have := List.find?_some hfind
    simpa using this
  induction posts with
  | nil => exact Option.noConfusion hfind
  | cons q qs ih =>
      rw [List.find?_cons] at hfind
      by_cases hq : q.id = id
      · simp only [hq, beq_self_eq_true, if_pos] at hfind
        cases hfind
        simp [savePost, List.find?_cons, hid, hpost, hq]
      · have hbq : (q.id == id) = false := by simpa using hq
        rw [hbq] at hfind
        have htail := ih hfind
        have hqne : (q.id == post'.id) = false := by
          rw [hid, hpost]
          exact hbq
        show List.find? (fun p => p.id == id)
            ((if (q.id == post'.id) = true then post' else q) :: savePost qs post')
          = some post'
        rw [if_neg (by simp [hqne]), List.find?_cons, hbq]
        exact htail

/-- After `findOneAndUpdate` on the profile a lookup found, the same
lookup finds the `$set`-updated record, provided the `$set` document
carries the same user id. -/
theorem find?_findOneAndUpdateProfile {profiles : List Profile} {userId : String}
    {f : ProfileFields} {profile : Profile}
    (hfind : profiles.find? (fun p => p.user == userId) = some profile)
    (hf : f.user = userId) :
    (findOneAndUpdateProfile profiles userId f).find? (fun p => p.user == userId)
      = some (applySet profile f) := by
  induction profiles with
  | nil => exact Option.noConfusion hfind
  | cons q qs ih =>
      rw [List.find?_cons] at hfind
      by_cases hq : q.user = userId
      · simp only [hq, beq_self_eq_true, if_pos] at hfind
        cases hfind
        simp [findOneAndUpdateProfile, List.find?_cons, applySet, hq, hf]
      · have hbq : (q.user == userId) = false := by simpa using hq
        rw [hbq] at hfind
        have htail := ih hfind
        show List.find? (fun p => p.user == userId)
            (if (q.user == userId) = true then applySet q f :: qs
             else q :: findOneAndUpdateProfile qs userId f)
          = some (applySet profile f)
        rw [if_neg (by simp [hbq]), List.find?_cons, hbq]
        exact htail

/-- `$set` on one optional top-level key: the request value when truthy,
the stored value otherwise. -/
theorem applySet_top_field (v w : Option String) :
    (match (if strTruthy v then v else none) with
      | some x => some x
      | none => w)
      = (if strTruthy v then v else w) := by
  cases v with
  | none => simp [strTruthy]
  | some s => by_cases hs : s = "" <;> simp [strTruthy, hs]

/-! ### Claim theorems -/

/-- C2: for every `createPost` request with non-empty text that succeeds,
the created post's `ispublic` field is `true` unless the submitted
`ispublic` value has exact runtime type boolean and value `false`, in
which case and only in which case it is `false`. -/
theorem createPost_ispublic (users : List User) (requesterId newId text : String)
    (v : JSValue) (p : Post)
    (hok : createPost users requesterId newId text v = .ok p) :
    p.ispublic = (v != JSValue.bool false) := by
  simp only [createPost, flag_check_eq] at hok
  split at hok
  · exact Except.noConfusion hok
  · split at hok
    · exact Except.noConfusion hok
    · split at hok
      next hv =>
        cases hok
        simp only [beq_iff_eq] at hv
        simp [hv]
      next hv =>
        cases hok
        simp only [bne_iff_ne, ne_eq]
        simp only [beq_iff_eq] at hv
        simpa using hv

/-- Witness for C2: the string `"false"` is not the boolean `false`, so a
post created with it is public. -/
theorem createPost_ispublic_witness :
    ({ id := "p1", text := "hi", name := "Ada", avatar := "av", user := "u1",
       ispublic := true, likes := [], comments := [] } : Post).ispublic
      = (JSValue.str "false" != JSValue.bool false) :=
  createPost_ispublic [{ id := "u1", name := "Ada", avatar := "av" }] "u1" "p1" "hi"
    (JSValue.str "false") _ (by decide)

/-- C9: `removeExperience` and `removeEducation` on an existing profile
with an entry id matching nothing succeed, return the profile unchanged,
and perform no store write. -/
theorem removeEntry_missing_id_noop (profiles : List Profile)
    (userId expId eduId : String) (profile : Profile)
    (hfind : profiles.find? (fun p => p.user == userId) = some profile)
    (hexp : expId ∉ profile.experience.map (fun e => e.id))
    (hedu : eduId ∉ profile.education.map (fun e => e.id)) :
    removeExperience profiles userId expId = (.ok profile, profiles, false)
    ∧ removeEducation profiles userId eduId = (.ok profile, profiles, false) := by
  have h1 : (profile.experience.map (fun e => e.id)).findIdx? (fun i => i == expId)
      = none :=
    (findIdx?_beq_eq_none_iff _ _).mpr hexp
  have h2 : (profile.education.map (fun e => e.id)).findIdx? (fun i => i == eduId)
      = none :=
    (findIdx?_beq_eq_none_iff _ _).mpr hedu
  constructor
  · simp [removeExperience, hfind, h1]
  · simp [removeEducation, hfind, h2]

/-- Witness for C9: a profile with one experience entry and one education
entry, probed with an id that matches neither. -/
theorem removeEntry_missing_id_noop_witness :
    removeExperience [cx9Profile] "u9" "zzz" = (.ok cx9Profile, [cx9Profile], false)
    ∧ removeEducation [cx9Profile] "u9" "zzz" = (.ok cx9Profile, [cx9Profile], false) :=
  removeEntry_missing_id_noop [cx9Profile] "u9" "zzz" "zzz" cx9Profile
    (by decide) (by decide) (by decide)

/-- C5: on a public post, a like by a user already present in the like
sequence fails with BadRequest "Post already liked" and leaves the store
unchanged; an unlike by a user not present fails with BadRequest
"Post was never liked" and leaves the store unchanged. -/
theorem like_unlike_conflict (posts : List Post) (id requesterId : String) (post : Post)
    (hfind : findPostById posts id = .result (some post))
    (hpub : post.ispublic = true) :
    (requesterId ∈ post.likes.map Like.user →
        likePost posts id requesterId = (.error (.badRequest "Post already liked"), posts))
    ∧ (requesterId ∉ post.likes.map Like.user →
        unlikePost posts id requesterId
          = (.error (.badRequest "Post was never liked"), posts)) := by
  constructor
  · intro hmem
    have hpos : 0 < (post.likes.filter (fun l => l.user == requesterId)).length :=
      (likes_filter_pos_iff _ _).mpr hmem
    simp [likePost, hfind, hpub, hpos]
  · intro hmem
    have hzero : (post.likes.filter (fun l => l.user == requesterId)).length = 0 := by
      by_contra h
      exact hmem ((likes_filter_pos_iff _ _).mp (Nat.pos_of_ne_zero h))
    simp [unlikePost, hfind, hpub, hzero]

/-- C6: `deletePost` answers 404 "Post not found" on a malformed or
unresolved id, 401 (store untouched) when the requester is not the owner,
and removes the post when the requester owns it — with no condition on
`ispublic`, so a private post is deletable by its owner. -/
theorem deletePost_spec (posts : List Post) (id requesterId : String) :
    (findPostById posts id = .castError →
        deletePost posts id requesterId = (.error (.notFound "Post not found"), posts))
    ∧ (findPostById posts id = .result none →
        deletePost posts id requesterId = (.error (.notFound "Post not found"), posts))
    ∧ (∀ post, findPostById posts id = .result (some post) → post.user ≠ requesterId →
        deletePost posts id requesterId =
          (.error (.unauthorized "User unauthorized to delete post"), posts))
    ∧ (∀ post, findPostById posts id = .result (some post) → post.user = requesterId →
        deletePost posts id requesterId =
          (.ok "Post removed", posts.eraseP (fun p => p.id == post.id))) := by
  refine ⟨?_, ?_, ?_, ?_⟩
  · intro h
    simp [deletePost, h]
  · intro h
    simp [deletePost, h]
  · intro post h hne
    simp [deletePost, h, hne]
  · intro post h he
    simp [deletePost, h, he]

/-- C7: `deleteComment` on an existing post answers 404 "Comment does not
exist" when no comment carries the id, 401 (store untouched) when the
first comment with the id is not the requester's, and otherwise removes
exactly that comment, keeping every other comment in its original
relative order. -/
theorem deleteComment_spec (posts : List Post) (id commentId requesterId : String)
    (post : Post)
    (hfind : findPostById posts id = .result (some post)) :
    (post.comments.findIdx? (fun c => c.id == commentId) = none →
        deleteComment posts id commentId requesterId =
          (.error (.notFound "Comment does not exist"), posts))
    ∧ (∀ i c, post.comments.findIdx? (fun c => c.id == commentId) = some i →
        post.comments[i]? = some c →
        (c.user ≠ requesterId →
            deleteComment posts id commentId requesterId =
              (.error (.unauthorized "User not authorized"), posts))
        ∧ (c.user = requesterId →
            deleteComment posts id commentId requesterId =
              (.ok "Comment deleted",
                savePost posts { post with comments := post.comments.eraseIdx i })
            ∧ post.comments.eraseIdx i
                = post.comments.take i ++ post.comments.drop (i + 1))) := by
  constructor
  · intro h
    simp [deleteComment, hfind, h]
  · intro i c hidx hget
    constructor
    · intro hne
      simp [deleteComment, hfind, hidx, hget, hne]
    · intro he
      constructor
      · simp [deleteComment, hfind, hidx, hget, he]
      · exact List.eraseIdx_eq_take_drop_succ _ _

/-- C4: on a public post, a like by a user not yet in the like sequence
followed by an unlike by the same user answers with the original like
sequence and stores the post back in its exact pre-like state. -/
theorem like_unlike_roundtrip (posts : List Post) (id requesterId : String) (post : Post)
    (hfind : findPostById posts id = .result (some post))
    (hpub : post.ispublic = true)
    (hnot : requesterId ∉ post.likes.map Like.user) :
    likePost posts id requesterId
      = (.ok ({ user := requesterId } :: post.likes),
         savePost posts { post with likes := { user := requesterId } :: post.likes })
    ∧ unlikePost
        (savePost posts { post with likes := { user := requesterId } :: post.likes })
        id requesterId
      = (.ok post.likes,
         savePost
           (savePost posts { post with likes := { user := requesterId } :: post.likes })
           post)
    ∧ findPostById
        (savePost
          (savePost posts { post with likes := { user := requesterId } :: post.likes })
          post) id
      = .result (some post) := by
  have hvalid : isValidObjectId id = true := by
    cases h : isValidObjectId id
    · simp [findPostById, h] at hfind
    · rfl
  have hfind' : posts.find? (fun p => p.id == id) = some post := by
    simpa [findPostById, hvalid] using hfind
  have hzero : (post.likes.filter (fun l => l.user == requesterId)).length = 0 := by
    by_contra h
    exact hnot ((likes_filter_pos_iff _ _).mp (Nat.pos_of_ne_zero h))
  have hsave1 : (savePost posts
        { post with likes := { user := requesterId } :: post.likes }).find?
        (fun p => p.id == id)
      = some { post with likes := { user := requesterId } :: post.likes } :=
    find?_savePost hfind' rfl
  have hfind1 : findPostById
      (savePost posts { post with likes := { user := requesterId } :: post.likes }) id
      = .result (some { post with likes := { user := requesterId } :: post.likes }) := by
    simp [findPostById, hvalid, hsave1]
  have hsave2 : (savePost
        (savePost posts { post with likes := { user := requesterId } :: post.likes })
        post).find? (fun p => p.id == id) = some post :=
    find?_savePost hsave1 rfl
  refine ⟨?_, ?_, ?_⟩
  · simp [likePost, hfind, hpub, hzero]
  · simp only [unlikePost, hfind1]
    rw [if_neg (by simp [hpub])]
    rw [if_neg (by simp [List.filter_cons])]
    have hidx : List.findIdx? (fun u => u == requesterId)
        (List.map (fun l => l.user) ({ user := requesterId } :: post.likes)) = some 0 := by
      simp
    simp only [hidx, List.eraseIdx_cons_zero]
  · simp [findPostById, hvalid, hsave2]

/-- C1 (amended): `getPost` fails with NotFound ("Post not found or is
private") iff the id is syntactically invalid or resolves to a post whose
`ispublic` is false; a valid id resolving to a public post returns the
post; a valid id resolving to no stored post yields the generic
ServerError (the handler dereferences the missing post), not NotFound. -/
theorem getPost_spec (posts : List Post) (id : String) :
    (getPost posts id = .error (.notFound ERR_NOTFOUND) ↔
        isValidObjectId id = false
        ∨ ∃ post, posts.find? (fun p => p.id == id) = some post ∧ post.ispublic = false)
    ∧ (∀ post, isValidObjectId id = true → posts.find? (fun p => p.id == id) = some post →
        post.ispublic = true → getPost posts id = .ok post)
    ∧ (isValidObjectId id = true → posts.find? (fun p => p.id == id) = none →
        getPost posts id = .error .serverError) := by
  refine ⟨?_, ?_, ?_⟩
  · cases hv : isValidObjectId id
    · simp [getPost, findPostById, hv]
    · cases hf : posts.find? (fun p => p.id == id) with
      | none => simp [getPost, findPostById, hv, hf]
      | some q =>
          cases hq : q.ispublic
          · simp [getPost, findPostById, hv, hf, hq]
          · simp [getPost, findPostById, hv, hf, hq]
  · intro post hv hf hp
    simp [getPost, findPostById, hv, hf, hp]
  · intro hv hf
    simp [getPost, findPostById, hv, hf]

/-- Counterexample to C1 as stated: a well-formed id that resolves to no
stored post makes `getPost` answer the generic ServerError, not the
claimed NotFound. -/
theorem getPost_missing_post_counterexample :
    getPost [] "aaaaaaaaaaaaaaaaaaaaaaaa" = .error .serverError
    ∧ getPost [] "aaaaaaaaaaaaaaaaaaaaaaaa" ≠ .error (.notFound ERR_NOTFOUND) := by
  decide

/-- Witness for C1: a stored public post is returned, and a malformed id
gets the NotFound answer. -/
theorem getPost_spec_witness :
    getPost [cx1Post] "eeeeeeeeeeeeeeeeeeeeeeee" = .ok cx1Post
    ∧ getPost [cx1Post] "not-an-objectid" = .error (.notFound ERR_NOTFOUND) :=
  ⟨(getPost_spec [cx1Post] "eeeeeeeeeeeeeeeeeeeeeeee").2.1 cx1Post (by decide) (by decide)
      (by decide),
   ((getPost_spec [cx1Post] "not-an-objectid").1).mpr (Or.inl (by decide))⟩

/-- C8 (amended): with a validated entry, `addExperience` inserts the
entry at the head of the existing profile's experience sequence and
returns the updated profile; when no profile exists for the user it fails
with the generic ServerError (the handler dereferences the missing
profile), not NotFound. -/
theorem addExperience_spec (profiles : List Profile) (userId : String) (entry : Experience)
    (hval : expValidationErrors entry.title entry.company entry.fromDate = []) :
    (profiles.find? (fun p => p.user == userId) = none →
        addExperience profiles userId entry = (.error .serverError, profiles))
    ∧ (∀ profile, profiles.find? (fun p => p.user == userId) = some profile →
        addExperience profiles userId entry =
          (.ok { profile with experience := entry :: profile.experience },
            saveProfile profiles
              { profile with experience := entry :: profile.experience })) := by
  constructor
  · intro h
    simp [addExperience, hval, h]
  · intro profile h
    simp [addExperience, hval, h]

/-- Counterexample to C8 as stated: with no profile in the store, a valid
entry yields the generic ServerError, not the claimed NotFound. -/
theorem addExperience_missing_profile_counterexample :
    addExperience [] "u1" cx8Entry = (.error .serverError, [])
    ∧ resultIsNotFound (addExperience [] "u1" cx8Entry).1 = false := by
  decide

/-- Witness for C8: head insertion on an existing profile. -/
theorem addExperience_spec_witness :
    addExperience [cx8Profile] "u8" cx8Entry
      = (.ok { cx8Profile with experience := cx8Entry :: cx8Profile.experience },
         saveProfile [cx8Profile]
           { cx8Profile with experience := cx8Entry :: cx8Profile.experience }) :=
  (addExperience_spec [cx8Profile] "u8" cx8Entry (by decide)).2 cx8Profile (by decide)

/-- Witness for C5: the double like and the unmatched unlike at a concrete
store. -/
theorem like_unlike_conflict_witness :
    likePost [cx5Post] "aaaaaaaaaaaaaaaaaaaaaaaa" "uA"
      = (.error (.badRequest "Post already liked"), [cx5Post])
    ∧ unlikePost [cx5Post] "aaaaaaaaaaaaaaaaaaaaaaaa" "uB"
      = (.error (.badRequest "Post was never liked"), [cx5Post]) :=
  ⟨(like_unlike_conflict [cx5Post] "aaaaaaaaaaaaaaaaaaaaaaaa" "uA" cx5Post (by decide)
      (by decide)).1 (by decide),
   (like_unlike_conflict [cx5Post] "aaaaaaaaaaaaaaaaaaaaaaaa" "uB" cx5Post (by decide)
      (by decide)).2 (by decide)⟩

/-- Witness for C6: the owner deletes their private post; a stranger is
refused. -/
theorem deletePost_spec_witness :
    deletePost [cx6Post] "bbbbbbbbbbbbbbbbbbbbbbbb" "u2"
      = (.error (.unauthorized "User unauthorized to delete post"), [cx6Post])
    ∧ deletePost [cx6Post] "bbbbbbbbbbbbbbbbbbbbbbbb" "u1"
      = (.ok "Post removed", [cx6Post].eraseP (fun p => p.id == cx6Post.id)) :=
  ⟨(deletePost_spec [cx6Post] "bbbbbbbbbbbbbbbbbbbbbbbb" "u2").2.2.1 cx6Post (by decide)
      (by decide),
   (deletePost_spec [cx6Post] "bbbbbbbbbbbbbbbbbbbbbbbb" "u1").2.2.2 cx6Post (by decide)
      (by decide)⟩

/-- Witness for C7: the non-author is refused, the author's deletion
removes exactly the located comment. -/
theorem deleteComment_spec_witness :
    deleteComment [cx7Post] "cccccccccccccccccccccccc" "m2" "uA"
      = (.error (.unauthorized "User not authorized"), [cx7Post])
    ∧ deleteComment [cx7Post] "cccccccccccccccccccccccc" "m2" "uB"
      = (.ok "Comment deleted",
         savePost [cx7Post] { cx7Post with comments := cx7Post.comments.eraseIdx 1 }) :=
  ⟨((deleteComment_spec [cx7Post] "cccccccccccccccccccccccc" "m2" "uA" cx7Post
        (by decide)).2 1
      { id := "m2", text := "two", name := "n2", avatar := "a2", user := "uB" }
      (by decide) (by decide)).1 (by decide),
   (((deleteComment_spec [cx7Post] "cccccccccccccccccccccccc" "m2" "uB" cx7Post
        (by decide)).2 1
      { id := "m2", text := "two", name := "n2", avatar := "a2", user := "uB" }
      (by decide) (by decide)).2 (by decide)).1⟩

/-- Witness for C4: like then unlike by `uA` at a concrete store restores
the stored like sequence `[uB]`. -/
theorem like_unlike_roundtrip_witness :
    likePost [cx4Post] "dddddddddddddddddddddddd" "uA"
      = (.ok ({ user := "uA" } :: cx4Post.likes),
         savePost [cx4Post] { cx4Post with likes := { user := "uA" } :: cx4Post.likes })
    ∧ unlikePost
        (savePost [cx4Post] { cx4Post with likes := { user := "uA" } :: cx4Post.likes })
        "dddddddddddddddddddddddd" "uA"
      = (.ok cx4Post.likes,
         savePost
           (savePost [cx4Post] { cx4Post with likes := { user := "uA" } :: cx4Post.likes })
           cx4Post)
    ∧ findPostById
        (savePost
          (savePost [cx4Post] { cx4Post with likes := { user := "uA" } :: cx4Post.likes })
          cx4Post) "dddddddddddddddddddddddd"
      = .result (some cx4Post) :=
  like_unlike_roundtrip [cx4Post] "dddddddddddddddddddddddd" "uA" cx4Post (by decide)
    (by decide) (by decide)

/-- C3 (amended): on an existing profile, `upsertProfile` updates exactly
the truthy top-level keys (absent ones retain the stored value), but the
`social` subdocument is replaced wholesale by the request's social fields
— absent social keys are cleared, not retained.  Two successive calls
therefore yield the union on top-level fields with second-call values
winning, while the social object is exactly the second call's. -/
theorem upsertProfile_merge (profiles : List Profile) (userId : String)
    (req req₂ : ProfileReq) (profile : Profile)
    (hval : profileValidationErrors req = [])
    (hval₂ : profileValidationErrors req₂ = [])
    (hfind : profiles.find? (fun p => p.user == userId) = some profile) :
    (upsertProfile profiles userId req
      = (.ok (applySet profile (buildProfileFields userId req)),
         findOneAndUpdateProfile profiles userId (buildProfileFields userId req)))
    ∧ (applySet profile (buildProfileFields userId req)).company
        = (if strTruthy req.company then req.company else profile.company)
    ∧ (applySet profile (buildProfileFields userId req)).website
        = (if strTruthy req.website then req.website else profile.website)
    ∧ (applySet profile (buildProfileFields userId req)).location
        = (if strTruthy req.location then req.location else profile.location)
    ∧ (applySet profile (buildProfileFields userId req)).bio
        = (if strTruthy req.bio then req.bio else profile.bio)
    ∧ (applySet profile (buildProfileFields userId req)).status
        = (if strTruthy req.status then req.status else profile.status)
    ∧ (applySet profile (buildProfileFields userId req)).githubusername
        = (if strTruthy req.githubusername then req.githubusername
           else profile.githubusername)
    ∧ (applySet profile (buildProfileFields userId req)).skills
        = (if strTruthy req.skills
           then ((req.skills.getD "").splitOn ",").map String.trim
           else profile.skills)
    ∧ (applySet profile (buildProfileFields userId req)).social = buildSocial req
    ∧ (applySet profile (buildProfileFields userId req)).experience = profile.experience
    ∧ (applySet profile (buildProfileFields userId req)).education = profile.education
    ∧ (∀ p₂, (upsertProfile
          (findOneAndUpdateProfile profiles userId (buildProfileFields userId req))
          userId req₂).1 = .ok p₂ →
        p₂ = applySet (applySet profile (buildProfileFields userId req))
              (buildProfileFields userId req₂)) := by
  refine ⟨?_, ?_, ?_, ?_, ?_, ?_, ?_, ?_, ?_, ?_, ?_, ?_⟩
  · simp [upsertProfile, hval, hfind]
  · simpa [applySet, buildProfileFields] using applySet_top_field req.company profile.company
  · simpa [applySet, buildProfileFields] using applySet_top_field req.website profile.website
  · simpa [applySet, buildProfileFields] using applySet_top_field req.location profile.location
  · simpa [applySet, buildProfileFields] using applySet_top_field req.bio profile.bio
  · simpa [applySet, buildProfileFields] using applySet_top_field req.status profile.status
  · simpa [applySet, buildProfileFields] using
      applySet_top_field req.githubusername profile.githubusername
  · cases hs : req.skills with
    | none => simp [applySet, buildProfileFields, hs, strTruthy]
    | some s =>
        by_cases he : s = ""
        · simp [applySet, buildProfileFields, hs, he, strTruthy]
        · simp [applySet, buildProfileFields, hs, he, strTruthy]
  · rfl
  · rfl
  · rfl
  · intro p₂ h
    have hfind2 : (findOneAndUpdateProfile profiles userId
        (buildProfileFields userId req)).find? (fun p => p.user == userId)
        = some (applySet profile (buildProfileFields userId req)) :=
      find?_findOneAndUpdateProfile hfind rfl
    simp [upsertProfile, hval₂, hfind2] at h
    exact h.symm

/-- Counterexample to C3 as stated: an update request mentioning no social
field clears the previously stored twitter link instead of retaining it. -/
theorem upsertProfile_social_counterexample :
    cx3Profile.social.twitter = some "t"
    ∧ cx3Req.twitter = none
    ∧ (upsertProfile [cx3Profile] "u3" cx3Req).1.map (fun p => p.social.twitter)
        = .ok none := by
  decide

/-- Witness for C3: the update equation and the wholesale replacement of
the social object at a concrete store. -/
theorem upsertProfile_merge_witness :
    upsertProfile [cx3Profile] "u3" cx3Req
      = (.ok (applySet cx3Profile (buildProfileFields "u3" cx3Req)),
         findOneAndUpdateProfile [cx3Profile] "u3" (buildProfileFields "u3" cx3Req))
    ∧ (applySet cx3Profile (buildProfileFields "u3" cx3Req)).social = buildSocial cx3Req := by
  have h := upsertProfile_merge [cx3Profile] "u3" cx3Req cx3Req cx3Profile
    (by decide) (by decide) (by decide)
  exact ⟨h.1, h.2.2.2.2.2.2.2.2.1⟩

/-- C10 (amended): an optional field supplied as the empty string is
treated exactly as if it were absent when the update document is built;
for a top-level field the stored value is therefore retained, but for a
social key the prior stored value is cleared, because the whole social
object is replaced by the update. -/
theorem upsertProfile_falsy_fields (profiles : List Profile) (userId : String)
    (req : ProfileReq) (profile u : Profile)
    (hval : profileValidationErrors req = [])
    (hfind : profiles.find? (fun p => p.user == userId) = some profile)
    (hok : (upsertProfile profiles userId req).1 = .ok u) :
    (buildProfileFields userId { req with company := some "" }
        = buildProfileFields userId { req with company := none })
    ∧ (buildProfileFields userId { req with youtube := some "" }
        = buildProfileFields userId { req with youtube := none })
    ∧ (req.company = some "" → u.company = profile.company)
    ∧ (req.website = some "" → u.website = profile.website)
    ∧ (req.location = some "" → u.location = profile.location)
    ∧ (req.bio = some "" → u.bio = profile.bio)
    ∧ (req.githubusername = some "" → u.githubusername = profile.githubusername)
    ∧ (req.youtube = some "" → u.social.youtube = none)
    ∧ (req.twitter = some "" → u.social.twitter = none)
    ∧ (req.facebook = some "" → u.social.facebook = none)
    ∧ (req.linkedin = some "" → u.social.linkedin = none)
    ∧ (req.instagram = some "" → u.social.instagram = none)
    ∧ (req.devpost = some "" → u.social.devpost = none) := by
  have hu : u = applySet profile (buildProfileFields userId req) := by
    simp [upsertProfile, hval, hfind] at hok
    exact hok.symm
  subst hu
  refine ⟨rfl, rfl, ?_, ?_, ?_, ?_, ?_, ?_, ?_, ?_, ?_, ?_, ?_⟩ <;>
    intro h <;>
    simp [applySet, buildProfileFields, buildSocial, strTruthy, h]

/-- Counterexample to C10 as stated: supplying `youtube` as the empty
string does not retain the stored youtube link — the update clears it. -/
theorem upsertProfile_falsy_social_counterexample :
    cx10Profile.social.youtube = some "y"
    ∧ cx10Req.youtube = some ""
    ∧ (upsertProfile [cx10Profile] "uX" cx10Req).1.map (fun p => p.social.youtube)
        = .ok none := by
  decide

/-- Witness for C10: the empty-equals-absent equation and the cleared
social key at a concrete store (where the empty-string `company` of the
request leaves the stored company in place). -/
theorem upsertProfile_falsy_fields_witness :
    (buildProfileFields "uX" { cx10Req with company := some "" }
        = buildProfileFields "uX" { cx10Req with company := none })
    ∧ (applySet cx10Profile (buildProfileFields "uX" cx10Req)).company
        = cx10Profile.company
    ∧ (applySet cx10Profile (buildProfileFields "uX" cx10Req)).social.youtube = none := by
  have h := upsertProfile_falsy_fields [cx10Profile] "uX" cx10Req cx10Profile
    (applySet cx10Profile (buildProfileFields "uX" cx10Req)) (by decide) (by decide)
    (by rfl)
  exact ⟨h.1, h.2.2.1 (by decide), h.2.2.2.2.2.2.2.1 (by decide)⟩

end DevConnector
